import Mathlib

/-!
Shallow embedding of the nutrition-target / daily-intake core of the
`ia-nutricionista-backend` repository.

Real-valued quantities (Python `float`) are modelled as exact rationals `ℚ`;
all constants appearing in the source (6.25, 0.85, 1.10, 1.8, 0.8, 0.25, …)
are decimal literals, so the rational model coincides with the float code on
the concrete inputs examined here (checked: no rounding tie is hit).
Python's `round` (banker's rounding, round-half-to-even) is modelled by
`pyRound`, and `int(...)` truncation toward zero by `pyInt`.
-/

/-- Python `round(x)` / `round(x, 0)`: round half to even. -/
def pyRound (q : ℚ) : ℤ :=
  if q - ⌊q⌋ < 1/2 then ⌊q⌋
  else if 1/2 < q - ⌊q⌋ then ⌊q⌋ + 1
  else if ⌊q⌋ % 2 = 0 then ⌊q⌋ else ⌊q⌋ + 1

/-- Python `int(x)` on a float: truncation toward zero. -/
def pyInt (q : ℚ) : ℤ :=
  if 0 ≤ q then ⌊q⌋ else ⌈q⌉

theorem pyRound_ge (q : ℚ) : q - 1/2 ≤ (pyRound q : ℚ) := by
  unfold pyRound
  have h1 : ((⌊q⌋ : ℤ) : ℚ) ≤ q := Int.floor_le q
  have h2 : q < (⌊q⌋ : ℤ) + 1 := Int.lt_floor_add_one q
  split
  · linarith
  · split
    · push_cast; linarith
    · split <;> push_cast <;> linarith

theorem pyRound_nonneg (q : ℚ) (h : 0 ≤ q) : 0 ≤ pyRound q := by
  unfold pyRound
  have h1 : 0 ≤ ⌊q⌋ := Int.floor_nonneg.mpr h
  split
  · exact h1
  · split
    · omega
    · split <;> omega

/-- From `(m : ℚ) - 1/2 ≤ z` for integers `m`, `z`, conclude `m ≤ z`. -/
theorem int_le_of_half (m z : ℤ) (h : (m : ℚ) - 1/2 ≤ (z : ℚ)) : m ≤ z := by
  have h' : (m : ℚ) < (z : ℚ) + 1 := by linarith
  have h'' : m < z + 1 := by exact_mod_cast h'
  omega

/-- `sex ∈ {M, F}` (`SexType` in the source). -/
inductive Sex where
  | M
  | F
deriving DecidableEq

/-- `goal_type ∈ {lose, maintain, gain}` (`GoalType` in the source). -/
inductive GoalType where
  | lose
  | maintain
  | gain
deriving DecidableEq

/--
The profile fields read by `_compute_targets` (both copies).  `sex` is
non-optional here: both call sites (`GET /targets` in `nutrition.py` and
`build_lina_system_prompt` in `lina_context.py`) validate that `sex` is set
to `M`/`F` before calling (the source comment reads "sex garantido no
/targets").  `pace_kg_per_week` and `restrictions` are never read by the
calculator and are omitted.
-/
structure Profile where
  sex : Sex
  age : ℤ
  height_cm : ℚ
  current_weight : ℚ
  activity_level : ℚ
  goal_type : GoalType
  confirm_low_calorie : Bool
deriving DecidableEq

/--
Result of a target computation.  `nutrition.py` wraps the four macro targets
in a nested `targets` dict inside `TargetsOut`, and `lina_context.py` returns
the same shape as a plain dict; both are flattened here into one record.
-/
structure TargetsOut where
  bmr : ℚ
  tdee : ℚ
  kcal : ℚ
  protein_g : ℚ
  fat_g : ℚ
  carbs_g : ℚ
  warnings : List String
  blocked : Bool
deriving DecidableEq

namespace Nutrition

/-- `_round5` from `app/endpoints/nutrition.py`. -/
def round5 (x : ℚ) : ℚ := ((pyRound (x / 5) : ℤ) : ℚ) * 5

/-- `_bmr_mifflin` from `app/endpoints/nutrition.py`. -/
def bmr_mifflin (sex : Sex) (age : ℤ) (height_cm weight_kg : ℚ) : ℚ :=
  match sex with
  | Sex.M => 10 * weight_kg + 6.25 * height_cm - 5 * (age : ℚ) + 5
  | Sex.F => 10 * weight_kg + 6.25 * height_cm - 5 * (age : ℚ) - 161

/-- `_adjusted_weight_if_obese` from `app/endpoints/nutrition.py`. -/
def adjusted_weight_if_obese (current_weight height_cm : ℚ) : ℚ :=
  let h := max height_cm 1 / 100
  let ibw := 25 * h ^ 2
  if ibw ≤ 0 then current_weight
  else
    let bmi := if h > 0 then current_weight / h ^ 2 else 0
    if bmi ≥ 30 then ibw + 0.25 * (current_weight - ibw)
    else current_weight

/-- The safety floor `min_kcal = 1200.0 if sex == "F" else 1400.0`
(line 218 of `nutrition.py`). -/
def min_kcal (p : Profile) : ℚ :=
  match p.sex with
  | Sex.F => 1200
  | Sex.M => 1400

/-- The goal-adjusted calories before the safety floor (lines 208-216 of
`nutrition.py`): `tdee * 0.85` / `* 1.10` / `tdee`. -/
def goal_kcal (p : Profile) : ℚ :=
  let bmr := bmr_mifflin p.sex p.age p.height_cm p.current_weight
  let tdee := bmr * p.activity_level
  match p.goal_type with
  | GoalType.lose => tdee * 0.85
  | GoalType.gain => tdee * 1.10
  | GoalType.maintain => tdee

/--
`_compute_targets` from `app/endpoints/nutrition.py` (lines 207-260).
The Python function also returns a `debug` dict, which no caller uses and
which is dropped here; the nested `targets` dict is flattened into the
record fields.
-/
def compute_targets (p : Profile) : TargetsOut :=
  let bmr := bmr_mifflin p.sex p.age p.height_cm p.current_weight
  let tdee := bmr * p.activity_level
  let kcal0 := goal_kcal p
  let mk := min_kcal p
  let wbk : List String × Bool × ℚ :=
    if kcal0 < mk then
      if p.confirm_low_calorie = false then
        (["Kcal calculada (" ++ toString (pyInt kcal0) ++
            " kcal) abaixo do mínimo seguro (" ++ toString (pyInt mk) ++
            " kcal). Necessária confirmação explícita."], true, mk)
      else
        (["Kcal abaixo do mínimo (" ++ toString (pyInt mk) ++
            " kcal) mas liberada por confirmação explícita."], false, kcal0)
    else ([], false, kcal0)
  let kcal := wbk.2.2
  let protein_weight := adjusted_weight_if_obese p.current_weight p.height_cm
  let protein_g := 1.8 * protein_weight
  let fat_g := 0.8 * p.current_weight
  let p_cal := protein_g * 4
  let f_cal := fat_g * 9
  let remaining := kcal - (p_cal + f_cal)
  let carbs_g := max 0 (remaining / 4)
  { bmr := ((pyRound bmr : ℤ) : ℚ)
    tdee := round5 tdee
    kcal := round5 kcal
    protein_g := ((pyRound protein_g : ℤ) : ℚ)
    fat_g := ((pyRound fat_g : ℤ) : ℚ)
    carbs_g := ((pyRound carbs_g : ℤ) : ℚ)
    warnings := wbk.1
    blocked := wbk.2.1 }

end Nutrition

namespace Lina

/-- `_round5` from `app/services/lina_context.py` (textually identical to the
copy in `nutrition.py`). -/
def round5 (x : ℚ) : ℚ := ((pyRound (x / 5) : ℤ) : ℚ) * 5

/-- `_bmr_mifflin` from `app/services/lina_context.py`. -/
def bmr_mifflin (sex : Sex) (age : ℤ) (height_cm weight_kg : ℚ) : ℚ :=
  match sex with
  | Sex.M => 10 * weight_kg + 6.25 * height_cm - 5 * (age : ℚ) + 5
  | Sex.F => 10 * weight_kg + 6.25 * height_cm - 5 * (age : ℚ) - 161

/-- `_adjusted_weight_if_obese` from `app/services/lina_context.py`. -/
def adjusted_weight_if_obese (current_weight height_cm : ℚ) : ℚ :=
  let h := max height_cm 1 / 100
  let ibw := 25 * h ^ 2
  if ibw ≤ 0 then current_weight
  else
    let bmi := if h > 0 then current_weight / h ^ 2 else 0
    if bmi ≥ 30 then ibw + 0.25 * (current_weight - ibw)
    else current_weight

/-- The safety floor in `lina_context._compute_targets` (line 80). -/
def min_kcal (p : Profile) : ℚ :=
  match p.sex with
  | Sex.F => 1200
  | Sex.M => 1400

/-- The goal-adjusted calories in `lina_context._compute_targets`
(lines 73-78). -/
def goal_kcal (p : Profile) : ℚ :=
  let bmr := bmr_mifflin p.sex p.age p.height_cm p.current_weight
  let tdee := bmr * p.activity_level
  match p.goal_type with
  | GoalType.lose => tdee * 0.85
  | GoalType.gain => tdee * 1.10
  | GoalType.maintain => tdee

/--
`_compute_targets` from `app/services/lina_context.py` (lines 62-106).
Unlike the `nutrition.py` copy, its low-calorie branch fires only when
`kcal < min_kcal and not confirm_low_calorie`; when the user has confirmed,
no warning is appended at all.
-/
def compute_targets (p : Profile) : TargetsOut :=
  let bmr := bmr_mifflin p.sex p.age p.height_cm p.current_weight
  let tdee := bmr * p.activity_level
  let kcal0 := goal_kcal p
  let mk := min_kcal p
  let wbk : List String × Bool × ℚ :=
    if kcal0 < mk ∧ p.confirm_low_calorie = false then
      (["Kcal calculada (" ++ toString (pyInt kcal0) ++
          " kcal) abaixo do mínimo seguro (" ++ toString (pyInt mk) ++
          " kcal)."], true, mk)
    else ([], false, kcal0)
  let kcal := wbk.2.2
  let protein_weight := adjusted_weight_if_obese p.current_weight p.height_cm
  let protein_g := 1.8 * protein_weight
  let fat_g := 0.8 * p.current_weight
  let p_cal := protein_g * 4
  let f_cal := fat_g * 9
  let carbs_g := max 0 ((kcal - (p_cal + f_cal)) / 4)
  { bmr := ((pyRound bmr : ℤ) : ℚ)
    tdee := round5 tdee
    kcal := round5 kcal
    protein_g := ((pyRound protein_g : ℤ) : ℚ)
    fat_g := ((pyRound fat_g : ℤ) : ℚ)
    carbs_g := ((pyRound carbs_g : ℤ) : ℚ)
    warnings := wbk.1
    blocked := wbk.2.1 }

end Lina

/-- One row of the `daily_intake` table: the four running sums of a
`(username, day)` key (`DailyIntakeRecord` in the spec). -/
structure IntakeRecord where
  kcal : ℚ
  protein_g : ℚ
  carbs_g : ℚ
  fat_g : ℚ
deriving DecidableEq

/-- The `daily_intake` table, as a partial map from `(username, day)` to its
row.  The day is the UTC calendar date string computed by `_today_utc()`;
here it is an explicit argument. -/
def Ledger : Type := String → String → Option IntakeRecord

def empty_ledger : Ledger := fun _ _ => none

/--
`_upsert_intake` from `app/endpoints/chat.py` (lines 182-195): the SQL
`INSERT ... ON CONFLICT (username, day) DO UPDATE SET kcal = kcal + EXCLUDED.kcal, ...`.
The Python wrapper passes `float(kcal or 0)`: `or 0` maps `None` to `0` and
is the identity on every number (including negative ones), so the arguments
arrive here unchanged.  No clamping is performed.
-/
def upsert_intake (L : Ledger) (username day : String)
    (kcal prot carbs fat : ℚ) : Ledger :=
  fun u' d' =>
    if u' = username ∧ d' = day then
      some (match L username day with
        | none => ⟨kcal, prot, carbs, fat⟩
        | some r =>
            ⟨r.kcal + kcal, r.protein_g + prot, r.carbs_g + carbs, r.fat_g + fat⟩)
    else L u' d'

/-- `_reset_intake` from `app/endpoints/chat.py` (lines 197-205): sets all
four sums of today's row to 0, creating the row if absent. -/
def reset_intake (L : Ledger) (username day : String) : Ledger :=
  fun u' d' =>
    if u' = username ∧ d' = day then some ⟨0, 0, 0, 0⟩
    else L u' d'

/-- `_get_intake` from `app/endpoints/chat.py` (lines 207-223): current sums,
or all zeros when the row does not exist. -/
def get_intake (L : Ledger) (username day : String) : IntakeRecord :=
  match L username day with
  | none => ⟨0, 0, 0, 0⟩
  | some r => r

/-- The argument of a `/consumo` directive after the source's regexes have
fired: either a bare non-negative-looking number (`/consumo 1300`) or the
list of `key=value` pairs matched by `re.findall` (keys already lowercased
by the loop). -/
inductive ConsumoArg where
  | bare (kcal : ℚ)
  | pairs (kvs : List (String × ℚ))

/-- One iteration of the `for k, v in re.findall(...)` loop of
`_parse_consumo`: clamp the value at 0 and assign it to the nutrient named
by the key (later pairs overwrite earlier ones). -/
def consumo_step (acc : ℚ × ℚ × ℚ × ℚ) (kv : String × ℚ) : ℚ × ℚ × ℚ × ℚ :=
  let val := max 0 kv.2
  if kv.1 ∈ (["kcal", "cal", "calorias"] : List String) then
    (val, acc.2.1, acc.2.2.1, acc.2.2.2)
  else if kv.1 ∈ (["p", "prot", "proteina", "proteína", "protein", "protein_g"] : List String) then
    (acc.1, val, acc.2.2.1, acc.2.2.2)
  else if kv.1 ∈ (["c", "carb", "carbo", "carboidrato", "carboidratos", "carbs_g"] : List String) then
    (acc.1, acc.2.1, val, acc.2.2.2)
  else if kv.1 ∈ (["f", "fat", "gordura", "gorduras", "fat_g"] : List String) then
    (acc.1, acc.2.1, acc.2.2.1, val)
  else acc

/-- `_parse_consumo` from `app/endpoints/chat.py` (lines 334-357), after the
regex boundary: returns `(kcal, p, c, f)`, each clamped at 0. -/
def parse_consumo : ConsumoArg → ℚ × ℚ × ℚ × ℚ
  | ConsumoArg.bare x => (max 0 x, 0, 0, 0)
  | ConsumoArg.pairs kvs => kvs.foldl consumo_step (0, 0, 0, 0)

/--
The list `linhas` built by `_format_status` in `app/endpoints/chat.py`
(lines 225-252).  `targets_ctx` models `(ctx or {}).get("targets")`: the
targets part of the Lina context (`None` when the profile is incomplete);
the source's `trg = t.get("targets") or t` double-shape unwrapping lands on
the flattened `TargetsOut` fields.  Python truthiness `if tkcal` on a float
is the test `tkcal ≠ 0`.
-/
def format_status_linhas (cons : IntakeRecord)
    (targets_ctx : Option TargetsOut) : List String :=
  let tkcal : ℚ := match targets_ctx with | none => 0 | some t => t.kcal
  let tp : ℚ := match targets_ctx with | none => 0 | some t => t.protein_g
  let tc : ℚ := match targets_ctx with | none => 0 | some t => t.carbs_g
  let tf : ℚ := match targets_ctx with | none => 0 | some t => t.fat_g
  let ck := pyRound cons.kcal
  let cp := pyRound cons.protein_g
  let cc := pyRound cons.carbs_g
  let cf := pyRound cons.fat_g
  let rk : ℤ := if tkcal ≠ 0 then pyRound (max 0 (tkcal - (ck : ℚ))) else 0
  let rp : ℤ := if tp ≠ 0 then pyRound (max 0 (tp - (cp : ℚ))) else 0
  let rc : ℤ := if tc ≠ 0 then pyRound (max 0 (tc - (cc : ℚ))) else 0
  let rf : ℤ := if tf ≠ 0 then pyRound (max 0 (tf - (cf : ℚ))) else 0
  ["📊 **Status do dia (UTC)**",
   "- **Calorias consumidas:** " ++ toString ck ++ " kcal",
   if tkcal ≠ 0 then "- **Calorias restantes:** " ++ toString rk ++ " kcal"
   else "- **Calorias restantes:** (meta não definida)",
   "- **Proteínas:** " ++ toString cp ++ " g" ++
     (if tp ≠ 0 then " · restante " ++ toString rp ++ " g"
      else " · (meta não definida)"),
   "- **Gorduras:** " ++ toString cf ++ " g" ++
     (if tf ≠ 0 then " · restante " ++ toString rf ++ " g"
      else " · (meta não definida)"),
   "- **Carboidratos:** " ++ toString cc ++ " g" ++
     (if tc ≠ 0 then " · restante " ++ toString rc ++ " g"
      else " · (meta não definida)")]

/-- `_format_status`: `"\n".join(linhas)`. -/
def format_status (cons : IntakeRecord) (targets_ctx : Option TargetsOut) : String :=
  String.intercalate ("\n") (format_status_linhas cons targets_ctx)

/-- One entry of the meal `items` list (`{"nome": ..., "quantidade": ...}`). -/
structure MealItem where
  nome : String
  quantidade : String
deriving DecidableEq

/-- The coerced `totais` block returned by `_analyze_meal_text`. -/
structure MealTotais where
  kcal : ℚ
  protein_g : ℚ
  carbs_g : ℚ
  fat_g : ℚ
deriving DecidableEq

/-- The dict returned by `_analyze_meal_text`; `raw` is the `_raw` key
(the model's raw reply text). -/
structure MealResult where
  items : List MealItem
  totais : MealTotais
  dica : String
  raw : String
deriving DecidableEq

/-- The numeric fields `json.loads` may have produced inside
`totais`/`totals`, each possibly absent (Portuguese alternates included,
as read by `_analyze_meal_text`). -/
structure RawTotals where
  kcal : Option ℚ
  protein_g : Option ℚ
  proteina_g : Option ℚ
  carbs_g : Option ℚ
  carboidratos_g : Option ℚ
  fat_g : Option ℚ
  gorduras_g : Option ℚ

/-- The successfully parsed JSON shape inside `_analyze_meal_text`'s `try`
block. -/
structure RawMeal where
  items : Option (List MealItem)
  totais : Option RawTotals
  totals : Option RawTotals
  dica : Option String

/-- Python `x or d` on an optional number: `None` and `0` are falsy. -/
def or_q (a : Option ℚ) (d : ℚ) : ℚ :=
  match a with
  | none => d
  | some x => if x = 0 then d else x

/--
The deterministic tail of `_analyze_meal_text` from `app/endpoints/chat.py`
(lines 268-305).  The model call and Python's `json.loads` over the
(fence-stripped) reply are the external boundary: `parsed` is `some d` when
the `try` block ran to completion on shape `d`, and `none` when anything in
it raised (malformed JSON, wrong shape, non-numeric totals).  The `except`
branch returns the all-zero fallback; the function never raises.
-/
def analyze_meal_text (raw : String) (parsed : Option RawMeal) : MealResult :=
  match parsed with
  | some d =>
      { items := d.items.getD []
        totais :=
          { kcal := or_q (d.totais.getD (d.totals.getD ⟨none, none, none, none, none, none, none⟩)).kcal 0
            protein_g :=
              or_q (d.totais.getD (d.totals.getD ⟨none, none, none, none, none, none, none⟩)).protein_g
                (or_q (d.totais.getD (d.totals.getD ⟨none, none, none, none, none, none, none⟩)).proteina_g 0)
            carbs_g :=
              or_q (d.totais.getD (d.totals.getD ⟨none, none, none, none, none, none, none⟩)).carbs_g
                (or_q (d.totais.getD (d.totals.getD ⟨none, none, none, none, none, none, none⟩)).carboidratos_g 0)
            fat_g :=
              or_q (d.totais.getD (d.totals.getD ⟨none, none, none, none, none, none, none⟩)).fat_g
                (or_q (d.totais.getD (d.totals.getD ⟨none, none, none, none, none, none, none⟩)).gorduras_g 0) }
        dica := d.dica.getD ""
        raw := raw }
  | none =>
      { items := []
        totais := { kcal := 0, protein_g := 0, carbs_g := 0, fat_g := 0 }
        dica := ""
        raw := raw }

/--
`_format_meal_reply` from `app/endpoints/chat.py` (lines 307-331).  Note
that, exactly as in the source, neither `username` nor `targets` is used in
the body.  `meal.get("totais") or {}` and `t.get("kcal") or 0` are identity
on the already-coerced `MealResult` (a zero stays zero).
-/
def format_meal_reply (username : String) (meal : MealResult)
    (targets : Option TargetsOut) (status_txt : Option String) : String :=
  let itens := meal.items
  let kcal := meal.totais.kcal
  let prot := meal.totais.protein_g
  let carbs := meal.totais.carbs_g
  let fat := meal.totais.fat_g
  let dica := meal.dica
  let header := "🍽️ **Refeição registrada (texto)**\n\n"
  let lista :=
    if itens = [] then ""
    else "Alimentos:\n" ++
      String.intercalate ("\n")
        (itens.map (fun i => "- " ++ i.nome ++ ": " ++ i.quantidade)) ++
      "\n\n"
  let macros_txt :=
    "**Macros estimadas:**\n- Calorias: " ++ toString (pyRound kcal) ++
    " kcal\n- Proteínas: " ++ toString (pyRound prot) ++
    " g\n- Carboidratos: " ++ toString (pyRound carbs) ++
    " g\n- Gorduras: " ++ toString (pyRound fat) ++ " g\n"
  let dica_txt := if dica = "" then "" else "\n💡 **Dica da Lina:** " ++ dica ++ "\n"
  let bloco_status :=
    match status_txt with
    | none => ""
    | some s => if s = "" then "" else "\n\n" ++ s ++ "\n"
  header ++ lista ++ macros_txt ++ bloco_status ++ dica_txt

/-- The profile of spec Example 1:
{sex=M, age=30, height=180cm, weight=92kg, activity=1.55, goal=gain,
confirm_low_calorie=false}. -/
def exampleProfile1 : Profile :=
  { sex := Sex.M, age := 30, height_cm := 180, current_weight := 92
    activity_level := 1.55, goal_type := GoalType.gain
    confirm_low_calorie := false }

/-- A valid profile (all fields in the documented ranges) whose goal-adjusted
calories (345.78 kcal) fall far below the 1200 kcal floor for `F`, with the
low-calorie override confirmed.  Its carbs target is floored at 0. -/
def lowCalProfile : Profile :=
  { sex := Sex.F, age := 100, height_cm := 120, current_weight := 25
    activity_level := 1.2, goal_type := GoalType.lose
    confirm_low_calorie := true }

/-! The four helper functions duplicated between `nutrition.py` and
`lina_context.py` are textually identical; their embeddings are
definitionally equal. -/

theorem lina_round5_eq : Lina.round5 = Nutrition.round5 := rfl

theorem lina_bmr_mifflin_eq : Lina.bmr_mifflin = Nutrition.bmr_mifflin := rfl

theorem lina_adjusted_weight_eq :
    Lina.adjusted_weight_if_obese = Nutrition.adjusted_weight_if_obese := rfl

theorem lina_min_kcal_eq : Lina.min_kcal = Nutrition.min_kcal := rfl

theorem lina_goal_kcal_eq : Lina.goal_kcal = Nutrition.goal_kcal := rfl

/--
C1: spec Example 1 — profile {M, 30, 180 cm, 92 kg, 1.55, gain, no low-cal
confirmation}.  The claim lists BMR 1900, TDEE 2945, kcal 3240,
protein 166 g, fat 74 g, carbs 480 g.  The code returns carbs 479 g:
carbs are computed from the un-rounded kcal 3239.5 and the exact
protein/fat calories (662.4 each), giving (3239.5 − 1324.8)/4 = 478.675,
which rounds to 479.  This counterexample refutes the carbs figure on both
implementations of the calculator.
-/
theorem compute_targets_example1_carbs_cex :
    (Nutrition.compute_targets exampleProfile1).carbs_g ≠ 480 ∧
    (Lina.compute_targets exampleProfile1).carbs_g ≠ 480 := by
  constructor <;>
  norm_num [Nutrition.compute_targets, Lina.compute_targets,
    Nutrition.goal_kcal, Nutrition.min_kcal, Lina.goal_kcal, Lina.min_kcal,
    Nutrition.bmr_mifflin, Lina.bmr_mifflin,
    Nutrition.adjusted_weight_if_obese, Lina.adjusted_weight_if_obese,
    Nutrition.round5, Lina.round5, exampleProfile1, pyRound, pyInt]

/--
C1 (amended): on spec Example 1 both `_compute_targets` implementations
return BMR 1900, TDEE 2945, kcal 3240, protein 166 g, fat 74 g and carbs
479 g (not 480 g as the spec example claims).
-/
theorem compute_targets_example1 :
    (Nutrition.compute_targets exampleProfile1).bmr = 1900 ∧
    (Nutrition.compute_targets exampleProfile1).tdee = 2945 ∧
    (Nutrition.compute_targets exampleProfile1).kcal = 3240 ∧
    (Nutrition.compute_targets exampleProfile1).protein_g = 166 ∧
    (Nutrition.compute_targets exampleProfile1).fat_g = 74 ∧
    (Nutrition.compute_targets exampleProfile1).carbs_g = 479 ∧
    (Lina.compute_targets exampleProfile1).bmr = 1900 ∧
    (Lina.compute_targets exampleProfile1).tdee = 2945 ∧
    (Lina.compute_targets exampleProfile1).kcal = 3240 ∧
    (Lina.compute_targets exampleProfile1).protein_g = 166 ∧
    (Lina.compute_targets exampleProfile1).fat_g = 74 ∧
    (Lina.compute_targets exampleProfile1).carbs_g = 479 := by
  refine ⟨?_, ?_, ?_, ?_, ?_, ?_, ?_, ?_, ?_, ?_, ?_, ?_⟩ <;>
  norm_num [Nutrition.compute_targets, Lina.compute_targets,
    Nutrition.goal_kcal, Nutrition.min_kcal, Lina.goal_kcal, Lina.min_kcal,
    Nutrition.bmr_mifflin, Lina.bmr_mifflin,
    Nutrition.adjusted_weight_if_obese, Lina.adjusted_weight_if_obese,
    Nutrition.round5, Lina.round5, exampleProfile1, pyRound, pyInt]

/--
C7: when the meal-parser model's reply cannot be parsed into the expected
JSON shape (`json.loads` or any of the shape coercions inside the `try`
block raises — modelled by `parsed = none`), `_analyze_meal_text` returns
the fallback estimate: empty item list, all-zero totals, empty tip; the
failure is swallowed locally (the function is total — it returns this value
instead of raising).
-/
theorem analyze_meal_parse_failure (raw : String) :
    analyze_meal_text raw none =
      { items := []
        totais := { kcal := 0, protein_g := 0, carbs_g := 0, fat_g := 0 }
        dica := ""
        raw := raw } := rfl

/-- A meal estimate far exceeding the targets below (kcal 2000 vs target
1000, an excess of 100 percent of the target). -/
def overMeal : MealResult :=
  { items := []
    totais := { kcal := 2000, protein_g := 200, carbs_g := 250, fat_g := 100 }
    dica := ""
    raw := "" }

/-- Daily targets far below `overMeal`'s totals on every nutrient. -/
def smallTargets : TargetsOut :=
  { bmr := 1500, tdee := 1800, kcal := 1000, protein_g := 100, fat_g := 50
    carbs_g := 100, warnings := [], blocked := false }

/--
C6: the claim says the meal-ingestion flow emits a per-nutrient warning
when a single meal exceeds the daily target by more than 5 percent.  No
deterministic code computes this: `_format_meal_reply` never reads its
`targets` argument, so its reply for a meal exceeding every target by far
more than 5 percent is character-for-character the reply produced with no
targets at all — no warning that depends on the targets can be present.
(The ">5%" rule exists only as natural-language instruction text embedded
in the LLM system prompt in `lina_context.py`.)
-/
theorem meal_reply_excess_no_warning_cex :
    smallTargets.kcal < overMeal.totais.kcal ∧
    overMeal.totais.kcal - smallTargets.kcal > 0.05 * smallTargets.kcal ∧
    format_meal_reply "user" overMeal (some smallTargets) (some ("status")) =
      format_meal_reply "user" overMeal none (some ("status")) :=
  ⟨by norm_num [smallTargets, overMeal], by norm_num [smallTargets, overMeal], rfl⟩

/--
C6 (amended): `_format_meal_reply` is independent of its `targets`
argument; the reply never contains a computed threshold warning, for any
meal and any targets.
-/
theorem meal_reply_ignores_targets (u : String) (meal : MealResult)
    (t1 t2 : Option TargetsOut) (s : Option String) :
    format_meal_reply u meal t1 s = format_meal_reply u meal t2 s := rfl

/-- Evaluation of `_adjusted_weight_if_obese` for heights of at least
120 cm: the `max(height_cm, 1)` guard and the `ibw ≤ 0` / `h > 0` branches
collapse, leaving the BMI test. -/
theorem adjusted_weight_eval (W H : ℚ) (h1 : 120 ≤ H) :
    Nutrition.adjusted_weight_if_obese W H =
      if W / (H / 100) ^ 2 ≥ 30 then
        25 * (H / 100) ^ 2 + 0.25 * (W - 25 * (H / 100) ^ 2)
      else W := by
  have hmax : max H 1 = H := max_eq_left (by linarith)
  have hsq : (0 : ℚ) < (H / 100) ^ 2 := by positivity
  have hpos : (0 : ℚ) < H / 100 := by linarith
  simp only [Nutrition.adjusted_weight_if_obese, hmax]
  rw [if_neg (by linarith), if_pos hpos]

/--
C8: for every height in [120, 230] and weight in [25, 400]: when
BMI = W/(H/100)² is below 30 the protein weight equals the current weight
(zero gap); when BMI ≥ 30 it equals `ibw + 0.25·(W − ibw)` with
`ibw = 25·(H/100)²`, which is strictly below the current weight (strictly
positive gap).  Holds for both copies of `_adjusted_weight_if_obese`.
-/
theorem adjusted_weight_bmi_spec (W H : ℚ)
    (h1 : 120 ≤ H) (h2 : H ≤ 230) (h3 : 25 ≤ W) (h4 : W ≤ 400) :
    (W / (H / 100) ^ 2 < 30 →
       Nutrition.adjusted_weight_if_obese W H = W ∧
       Lina.adjusted_weight_if_obese W H = W) ∧
    (30 ≤ W / (H / 100) ^ 2 →
       Nutrition.adjusted_weight_if_obese W H =
         25 * (H / 100) ^ 2 + 0.25 * (W - 25 * (H / 100) ^ 2) ∧
       Lina.adjusted_weight_if_obese W H =
         25 * (H / 100) ^ 2 + 0.25 * (W - 25 * (H / 100) ^ 2) ∧
       Nutrition.adjusted_weight_if_obese W H < W) := by
  have heval := adjusted_weight_eval W H h1
  have hsq : (0 : ℚ) < (H / 100) ^ 2 := by positivity
  have hlina : Lina.adjusted_weight_if_obese = Nutrition.adjusted_weight_if_obese := rfl
  constructor
  · intro hbmi
    rw [hlina, heval, if_neg (by linarith)]
    exact ⟨rfl, rfl⟩
  · intro hbmi
    have hW : 30 * (H / 100) ^ 2 ≤ W := by
      rw [le_div_iff₀ hsq] at hbmi
      linarith
    rw [hlina, heval, if_pos (by linarith)]
    refine ⟨rfl, rfl, ?_⟩
    nlinarith [hsq]

/-- Witness for C8 at the Example-1 body: H = 180, W = 92 (BMI ≈ 28.4). -/
theorem adjusted_weight_bmi_spec_witness :
    Nutrition.adjusted_weight_if_obese 92 180 = 92 :=
  ((adjusted_weight_bmi_spec 92 180 (by norm_num) (by norm_num)
      (by norm_num) (by norm_num)).1 (by norm_num)).1

/--
C2: for a valid profile whose goal-adjusted calories fall below the
sex-specific floor and whose `confirm_low_calorie` flag is true.  The claim
("keeps the lower kcal, appends an informational warning, blocked = false")
holds of `nutrition.py`'s `_compute_targets`, but `lina_context.py`'s copy
appends no warning in this situation: its low-calorie branch is guarded by
`kcal < min_kcal and not confirm_low_calorie`, so with the confirmation in
place the warnings list stays empty.  At `lowCalProfile` (F, 100 y, 120 cm,
25 kg, 1.2, lose, confirmed) the adjusted 345.78 kcal is kept (rounds to
345), `blocked = false`, and the Lina implementation returns no warning —
refuting the claim as stated for that implementation.
-/
theorem lina_confirmed_no_warning_cex :
    Lina.goal_kcal lowCalProfile < Lina.min_kcal lowCalProfile ∧
    lowCalProfile.confirm_low_calorie = true ∧
    (Lina.compute_targets lowCalProfile).kcal = 345 ∧
    (Lina.compute_targets lowCalProfile).blocked = false ∧
    (Lina.compute_targets lowCalProfile).warnings = [] := by
  refine ⟨?_, rfl, ?_, ?_, ?_⟩ <;>
  norm_num [Lina.compute_targets, Lina.goal_kcal, Lina.min_kcal,
    Lina.bmr_mifflin, Lina.adjusted_weight_if_obese, Lina.round5,
    lowCalProfile, pyRound, pyInt]

/--
C2 (amended): when the goal-adjusted calories are below the floor and
`confirm_low_calorie` is true, both implementations keep the lower computed
kcal (returning `round5` of it, not the floor) with `blocked = false`;
`nutrition.py` appends the informational warning while `lina_context.py`
appends none.
-/
theorem low_calorie_confirmed (p : Profile)
    (hlow : Nutrition.goal_kcal p < Nutrition.min_kcal p)
    (hc : p.confirm_low_calorie = true) :
    (Nutrition.compute_targets p).kcal = Nutrition.round5 (Nutrition.goal_kcal p) ∧
    (Nutrition.compute_targets p).warnings =
      ["Kcal abaixo do mínimo (" ++ toString (pyInt (Nutrition.min_kcal p)) ++
        " kcal) mas liberada por confirmação explícita."] ∧
    (Nutrition.compute_targets p).blocked = false ∧
    (Lina.compute_targets p).kcal = Nutrition.round5 (Nutrition.goal_kcal p) ∧
    (Lina.compute_targets p).warnings = [] ∧
    (Lina.compute_targets p).blocked = false := by
  refine ⟨?_, ?_, ?_, ?_, ?_, ?_⟩ <;>
  simp [Nutrition.compute_targets, Lina.compute_targets, lina_goal_kcal_eq,
    lina_min_kcal_eq, lina_round5_eq, hlow, hc]

/-- Witness for C2 at `lowCalProfile`. -/
theorem low_calorie_confirmed_witness :
    Nutrition.goal_kcal lowCalProfile < Nutrition.min_kcal lowCalProfile ∧
    lowCalProfile.confirm_low_calorie = true ∧
    (Nutrition.compute_targets lowCalProfile).blocked = false ∧
    (Lina.compute_targets lowCalProfile).blocked = false := by
  have h1 : Nutrition.goal_kcal lowCalProfile < Nutrition.min_kcal lowCalProfile := by
    norm_num [Nutrition.goal_kcal, Nutrition.min_kcal, Nutrition.bmr_mifflin,
      lowCalProfile]
  have h := low_calorie_confirmed lowCalProfile h1 rfl
  exact ⟨h1, rfl, h.2.2.1, h.2.2.2.2.2⟩

/--
C9: the two `_compute_targets` implementations diverge on warnings.  At
`lowCalProfile` (below-floor calories, confirmation in place) the copy in
`nutrition.py` emits one warning while the copy in `lina_context.py` emits
none — they do not warn "in exactly the same cases".
-/
theorem warnings_divergence_cex :
    (Nutrition.compute_targets lowCalProfile).warnings.length = 1 ∧
    (Lina.compute_targets lowCalProfile).warnings.length = 0 := by
  have h1 : Nutrition.goal_kcal lowCalProfile < Nutrition.min_kcal lowCalProfile := by
    norm_num [Nutrition.goal_kcal, Nutrition.min_kcal, Nutrition.bmr_mifflin,
      lowCalProfile]
  have hc : lowCalProfile.confirm_low_calorie = true := rfl
  constructor <;>
  simp [Nutrition.compute_targets, Lina.compute_targets, lina_goal_kcal_eq,
    lina_min_kcal_eq, h1, hc]

/--
C9 (amended): for every profile the two implementations agree on BMR, TDEE,
kcal, protein, fat, carbs and the blocked flag; they differ only on
warnings: `nutrition.py` warns exactly when the goal-adjusted calories are
below the floor, `lina_context.py` warns exactly when additionally the
low-calorie confirmation is absent.
-/
theorem compute_targets_equiv_amended (p : Profile) :
    (Nutrition.compute_targets p).bmr = (Lina.compute_targets p).bmr ∧
    (Nutrition.compute_targets p).tdee = (Lina.compute_targets p).tdee ∧
    (Nutrition.compute_targets p).kcal = (Lina.compute_targets p).kcal ∧
    (Nutrition.compute_targets p).protein_g = (Lina.compute_targets p).protein_g ∧
    (Nutrition.compute_targets p).fat_g = (Lina.compute_targets p).fat_g ∧
    (Nutrition.compute_targets p).carbs_g = (Lina.compute_targets p).carbs_g ∧
    (Nutrition.compute_targets p).blocked = (Lina.compute_targets p).blocked ∧
    ((Nutrition.compute_targets p).warnings ≠ [] ↔
       Nutrition.goal_kcal p < Nutrition.min_kcal p) ∧
    ((Lina.compute_targets p).warnings ≠ [] ↔
       Nutrition.goal_kcal p < Nutrition.min_kcal p ∧
       p.confirm_low_calorie = false) := by
  by_cases hlow : Nutrition.goal_kcal p < Nutrition.min_kcal p <;>
  cases hc : p.confirm_low_calorie <;>
  simp [Nutrition.compute_targets, Lina.compute_targets, lina_goal_kcal_eq,
    lina_min_kcal_eq, lina_round5_eq, lina_bmr_mifflin_eq,
    lina_adjusted_weight_eq, hlow, hc]

/-- `round5` maps a value that is at least the integer multiple `m·5` to a
result that is still at least `m·5`. -/
theorem round5_ge_mul (x : ℚ) (m : ℤ) (h : (m : ℚ) * 5 ≤ x) :
    (m : ℚ) * 5 ≤ Nutrition.round5 x := by
  have hge := pyRound_ge (x / 5)
  have hm : (m : ℚ) - 1/2 ≤ ((pyRound (x / 5) : ℤ) : ℚ) := by linarith
  have hmz : m ≤ pyRound (x / 5) := int_le_of_half _ _ hm
  have hq : (m : ℚ) ≤ ((pyRound (x / 5) : ℤ) : ℚ) := by exact_mod_cast hmz
  unfold Nutrition.round5
  linarith

/-- The safety floors are exact multiples of 5, so `round5` fixes them. -/
theorem round5_min_kcal (p : Profile) :
    Nutrition.round5 (Nutrition.min_kcal p) = Nutrition.min_kcal p := by
  cases hs : p.sex <;>
  norm_num [Nutrition.min_kcal, Nutrition.round5, pyRound, hs]

/-- The two possible values of the safety floor. -/
theorem min_kcal_cases (p : Profile) :
    Nutrition.min_kcal p = 1200 ∨ Nutrition.min_kcal p = 1400 := by
  cases hs : p.sex
  · right; simp [Nutrition.min_kcal, hs]
  · left; simp [Nutrition.min_kcal, hs]

/-- A value at least the safety floor stays at least the floor after
`round5` (the floors are multiples of 5). -/
theorem round5_ge_min (p : Profile) (x : ℚ) (h : Nutrition.min_kcal p ≤ x) :
    Nutrition.min_kcal p ≤ Nutrition.round5 x := by
  rcases min_kcal_cases p with hmk | hmk <;> rw [hmk] at h ⊢
  · have h1 : ((240 : ℤ) : ℚ) * 5 ≤ x := by push_cast; linarith
    have h2 := round5_ge_mul x 240 h1
    push_cast at h2
    linarith
  · have h1 : ((280 : ℤ) : ℚ) * 5 ≤ x := by push_cast; linarith
    have h2 := round5_ge_mul x 280 h1
    push_cast at h2
    linarith

/-- Without the low-calorie confirmation, the kcal target returned by
`nutrition.py`'s `_compute_targets` never falls below the safety floor. -/
theorem nutrition_kcal_ge_min (p : Profile) (hc : p.confirm_low_calorie = false) :
    Nutrition.min_kcal p ≤ (Nutrition.compute_targets p).kcal := by
  by_cases hlow : Nutrition.goal_kcal p < Nutrition.min_kcal p
  · have hk : (Nutrition.compute_targets p).kcal =
        Nutrition.round5 (Nutrition.min_kcal p) := by
      simp [Nutrition.compute_targets, hlow, hc]
    rw [hk, round5_min_kcal]
  · have hk : (Nutrition.compute_targets p).kcal =
        Nutrition.round5 (Nutrition.goal_kcal p) := by
      simp [Nutrition.compute_targets, hlow, hc]
    rw [hk]
    exact round5_ge_min p _ (not_lt.mp hlow)

/-- The same floor bound for `lina_context.py`'s `_compute_targets`. -/
theorem lina_kcal_ge_min (p : Profile) (hc : p.confirm_low_calorie = false) :
    Lina.min_kcal p ≤ (Lina.compute_targets p).kcal := by
  by_cases hlow : Lina.goal_kcal p < Lina.min_kcal p
  · have hk : (Lina.compute_targets p).kcal =
        Lina.round5 (Lina.min_kcal p) := by
      simp [Lina.compute_targets, hlow, hc]
    rw [hk, lina_round5_eq, lina_min_kcal_eq, round5_min_kcal]
  · have hk : (Lina.compute_targets p).kcal =
        Lina.round5 (Lina.goal_kcal p) := by
      simp [Lina.compute_targets, hlow, hc]
    rw [hk, lina_round5_eq, lina_goal_kcal_eq, lina_min_kcal_eq]
    rw [lina_goal_kcal_eq, lina_min_kcal_eq] at hlow
    exact round5_ge_min p _ (not_lt.mp hlow)

/--
C10: for every profile and for both `_compute_targets` implementations:
whenever `blocked = true` the confirmation flag was false and the returned
kcal target equals exactly the sex-specific floor; and a kcal target
strictly below the floor is only returned when `confirm_low_calorie` is
true.
-/
theorem blocked_floor_invariant (p : Profile) :
    ((Nutrition.compute_targets p).blocked = true →
       p.confirm_low_calorie = false ∧
       (Nutrition.compute_targets p).kcal = Nutrition.min_kcal p) ∧
    ((Nutrition.compute_targets p).kcal < Nutrition.min_kcal p →
       p.confirm_low_calorie = true) ∧
    ((Lina.compute_targets p).blocked = true →
       p.confirm_low_calorie = false ∧
       (Lina.compute_targets p).kcal = Lina.min_kcal p) ∧
    ((Lina.compute_targets p).kcal < Lina.min_kcal p →
       p.confirm_low_calorie = true) := by
  refine ⟨?_, ?_, ?_, ?_⟩
  · intro hb
    by_cases hlow : Nutrition.goal_kcal p < Nutrition.min_kcal p <;>
    cases hc : p.confirm_low_calorie
    · refine ⟨rfl, ?_⟩
      have hk : (Nutrition.compute_targets p).kcal =
          Nutrition.round5 (Nutrition.min_kcal p) := by
        simp [Nutrition.compute_targets, hlow, hc]
      rw [hk, round5_min_kcal]
    · exact absurd hb (by simp [Nutrition.compute_targets, hlow, hc])
    · exact absurd hb (by simp [Nutrition.compute_targets, hlow, hc])
    · exact absurd hb (by simp [Nutrition.compute_targets, hlow, hc])
  · intro hlt
    cases hc : p.confirm_low_calorie
    · exact absurd hlt (not_lt.mpr (nutrition_kcal_ge_min p hc))
    · rfl
  · intro hb
    by_cases hlow : Lina.goal_kcal p < Lina.min_kcal p <;>
    cases hc : p.confirm_low_calorie
    · refine ⟨rfl, ?_⟩
      have hk : (Lina.compute_targets p).kcal =
          Lina.round5 (Lina.min_kcal p) := by
        simp [Lina.compute_targets, hlow, hc]
      rw [hk, lina_round5_eq, lina_min_kcal_eq, round5_min_kcal]
    · exact absurd hb (by simp [Lina.compute_targets, hlow, hc])
    · exact absurd hb (by simp [Lina.compute_targets, hlow, hc])
    · exact absurd hb (by simp [Lina.compute_targets, hlow, hc])
  · intro hlt
    cases hc : p.confirm_low_calorie
    · exact absurd hlt (not_lt.mpr (lina_kcal_ge_min p hc))
    · rfl

/-- A valid below-floor profile without the confirmation: `_compute_targets`
blocks it and clamps the kcal target to the 1200 kcal floor. -/
def lowCalBlockedProfile : Profile :=
  { sex := Sex.F, age := 100, height_cm := 120, current_weight := 25
    activity_level := 1.2, goal_type := GoalType.lose
    confirm_low_calorie := false }

/-- Witness for C10 at `lowCalBlockedProfile` (blocked, kcal = 1200). -/
theorem blocked_floor_invariant_witness :
    lowCalBlockedProfile.confirm_low_calorie = false ∧
    (Nutrition.compute_targets lowCalBlockedProfile).kcal =
      Nutrition.min_kcal lowCalBlockedProfile :=
  (blocked_floor_invariant lowCalBlockedProfile).1 (by
    have h1 : Nutrition.goal_kcal lowCalBlockedProfile <
        Nutrition.min_kcal lowCalBlockedProfile := by
      norm_num [Nutrition.goal_kcal, Nutrition.min_kcal, Nutrition.bmr_mifflin,
        lowCalBlockedProfile]
    have hc : lowCalBlockedProfile.confirm_low_calorie = false := rfl
    simp [Nutrition.compute_targets, h1, hc])

/-- A day with an existing row (10 kcal, 2 g, 3 g, 4 g) for user "u". -/
def cexLedger : Ledger := upsert_intake empty_ledger "u" "2025-01-01" 10 2 3 4

/--
C3: the claim says every `add` clamps negative contributions to zero so the
stored sums never decrease.  `_upsert_intake` performs no clamping —
`float(kcal or 0)` only maps `None` to 0 and passes negative numbers
through to the SQL `kcal + EXCLUDED.kcal` — so adding kcal = −5 to a day
holding 10 kcal leaves 5 kcal: the ledger decreased.  (Only the `/consumo`
parser clamps; the meal path `_analyze_meal_text → _upsert_intake` does
not.)
-/
theorem add_negative_decreases_cex :
    (get_intake (upsert_intake cexLedger "u" "2025-01-01" (-5) 0 0 0)
        "u" "2025-01-01").kcal <
      (get_intake cexLedger "u" "2025-01-01").kcal := by
  norm_num [cexLedger, get_intake, upsert_intake, empty_ledger]

/-- Components of the `_parse_consumo` accumulator stay non-negative
through the key=value loop. -/
theorem consumo_foldl_nonneg (kvs : List (String × ℚ)) (acc : ℚ × ℚ × ℚ × ℚ)
    (h1 : 0 ≤ acc.1) (h2 : 0 ≤ acc.2.1) (h3 : 0 ≤ acc.2.2.1)
    (h4 : 0 ≤ acc.2.2.2) :
    0 ≤ (kvs.foldl consumo_step acc).1 ∧
    0 ≤ (kvs.foldl consumo_step acc).2.1 ∧
    0 ≤ (kvs.foldl consumo_step acc).2.2.1 ∧
    0 ≤ (kvs.foldl consumo_step acc).2.2.2 := by
  induction kvs generalizing acc with
  | nil => exact ⟨h1, h2, h3, h4⟩
  | cons kv rest ih =>
      simp only [List.foldl_cons, consumo_step]
      have hmax : 0 ≤ max (0 : ℚ) kv.2 := le_max_left 0 kv.2
      split_ifs
      · exact ih _ hmax h2 h3 h4
      · exact ih _ h1 hmax h3 h4
      · exact ih _ h1 h2 hmax h4
      · exact ih _ h1 h2 h3 hmax
      · exact ih _ h1 h2 h3 h4

/--
C3 (amended): `add` itself is additive without clamping, so it is monotone
only for non-negative arguments; the clamping the spec describes lives in
the `/consumo` parser, whose four outputs are always ≥ 0 (so contributions
routed through `/consumo` never decrease the ledger).
-/
theorem add_monotone_amended (L : Ledger) (u d : String) (k pr cb ft : ℚ)
    (hk : 0 ≤ k) (hp : 0 ≤ pr) (hcb : 0 ≤ cb) (hft : 0 ≤ ft) :
    ((get_intake L u d).kcal ≤
        (get_intake (upsert_intake L u d k pr cb ft) u d).kcal ∧
     (get_intake L u d).protein_g ≤
        (get_intake (upsert_intake L u d k pr cb ft) u d).protein_g ∧
     (get_intake L u d).carbs_g ≤
        (get_intake (upsert_intake L u d k pr cb ft) u d).carbs_g ∧
     (get_intake L u d).fat_g ≤
        (get_intake (upsert_intake L u d k pr cb ft) u d).fat_g) ∧
    (∀ a : ConsumoArg,
       0 ≤ (parse_consumo a).1 ∧ 0 ≤ (parse_consumo a).2.1 ∧
       0 ≤ (parse_consumo a).2.2.1 ∧ 0 ≤ (parse_consumo a).2.2.2) := by
  constructor
  · simp only [get_intake, upsert_intake, eq_self_iff_true, and_self, if_true]
    cases hL : L u d with
    | none => simpa [hL] using ⟨hk, hp, hcb, hft⟩
    | some r =>
        simp only [hL]
        refine ⟨by linarith, by linarith, by linarith, by linarith⟩
  · intro a
    cases a with
    | bare x =>
        simp only [parse_consumo]
        exact ⟨le_max_left 0 x, le_refl 0, le_refl 0, le_refl 0⟩
    | pairs kvs =>
        exact consumo_foldl_nonneg kvs (0, 0, 0, 0) le_rfl le_rfl le_rfl le_rfl

/-- Witness for C3 (amended) on the concrete day `cexLedger`. -/
theorem add_monotone_amended_witness :
    (get_intake cexLedger "u" "2025-01-01").kcal ≤
      (get_intake (upsert_intake cexLedger "u" "2025-01-01" 1 1 1 1)
          "u" "2025-01-01").kcal :=
  ((add_monotone_amended cexLedger "u" "2025-01-01" 1 1 1 1
      (by norm_num) (by norm_num) (by norm_num) (by norm_num)).1).1

/--
C5: two `add`s on the same `(user, day)` key with non-negative contributions
equal one `add` of the component-wise sums (the upsert is a plain addition,
so this follows from associativity); `/consumo kcal=700 p=50 c=80 f=20`
parses to (700, 50, 80, 20), and applying that intake twice to a fresh day
yields kcal 1400, protein 100 g, carbs 160 g, fat 40 g.
-/
theorem add_add_fusion (L : Ledger) (u d : String)
    (k1 p1 c1 f1 k2 p2 c2 f2 : ℚ)
    (h1 : 0 ≤ k1) (h2 : 0 ≤ p1) (h3 : 0 ≤ c1) (h4 : 0 ≤ f1)
    (h5 : 0 ≤ k2) (h6 : 0 ≤ p2) (h7 : 0 ≤ c2) (h8 : 0 ≤ f2) :
    upsert_intake (upsert_intake L u d k1 p1 c1 f1) u d k2 p2 c2 f2 =
      upsert_intake L u d (k1 + k2) (p1 + p2) (c1 + c2) (f1 + f2) ∧
    parse_consumo (ConsumoArg.pairs
        [("kcal", 700), ("p", 50), ("c", 80), ("f", 20)]) = (700, 50, 80, 20) ∧
    get_intake (upsert_intake (upsert_intake empty_ledger u d 700 50 80 20)
        u d 700 50 80 20) u d = ⟨1400, 100, 160, 40⟩ := by
  refine ⟨?_, ?_, ?_⟩
  · funext u' d'
    simp only [upsert_intake]
    by_cases hkey : u' = u ∧ d' = d
    · simp only [if_pos hkey, eq_self_iff_true, and_self, if_true]
      cases hL : L u d with
      | none => simp [hL]
      | some r => simp [hL, add_assoc]
    · simp only [if_neg hkey]
  · simp [parse_consumo, consumo_step]
  · simp [get_intake, upsert_intake, empty_ledger]
    norm_num

/-- Witness for C5 with unit contributions on the `cexLedger` day. -/
theorem add_add_fusion_witness :
    upsert_intake (upsert_intake cexLedger "u" "2025-01-01" 1 2 3 4)
        "u" "2025-01-01" 5 6 7 8 =
      upsert_intake cexLedger "u" "2025-01-01" (1 + 5) (2 + 6) (3 + 7) (4 + 8) :=
  (add_add_fusion cexLedger "u" "2025-01-01" 1 2 3 4 5 6 7 8
      (by norm_num) (by norm_num) (by norm_num) (by norm_num)
      (by norm_num) (by norm_num) (by norm_num) (by norm_num)).1

/--
C4: the claim says that whenever a `TargetSet` is supplied no
remaining-budget field is flagged "target not defined".  `_format_status`
decides the flag per field by Python truthiness of the *target value*
(`if tkcal`, `if tp`, …), so a nutrient whose target is 0 is flagged even
though a TargetSet is present.  A zero target is reachable from a valid
profile: `lowCalProfile` (F, 100 y, 120 cm, 25 kg, activity 1.2, lose,
low-calorie confirmed) yields a carbs target of 0 g, and the status line
for carbs then reads "(meta não definida)".
-/
theorem format_status_zero_target_cex :
    (Lina.compute_targets lowCalProfile).carbs_g = 0 ∧
    (format_status_linhas ⟨0, 0, 0, 0⟩
        (some (Lina.compute_targets lowCalProfile)))[5]? =
      some ("- **Carboidratos:** 0 g · (meta não definida)") := by
  have hc : (Lina.compute_targets lowCalProfile).carbs_g = 0 := by
    norm_num [Lina.compute_targets, Lina.goal_kcal, Lina.min_kcal,
      Lina.bmr_mifflin, Lina.adjusted_weight_if_obese, Lina.round5,
      lowCalProfile, pyRound, pyInt]
  have hpr : pyRound ((0 : ℚ)) = 0 := by norm_num [pyRound]
  refine ⟨hc, ?_⟩
  simp only [format_status_linhas, hc, hpr]
  simp
  decide

/--
C4 (amended): when `targets` is `None` every remaining-budget line is
flagged "(meta não definida)"; when a `TargetSet` is supplied, each
nutrient's line shows `max(0, target − round(consumed))` — never negative —
exactly when that nutrient's target value is non-zero, and is flagged
"(meta não definida)" when the target value is 0 (Python truthiness),
even though a TargetSet is present.
-/
theorem format_status_amended (cons : IntakeRecord) (t : TargetsOut) :
    format_status_linhas cons none =
      ["📊 **Status do dia (UTC)**",
       "- **Calorias consumidas:** " ++ toString (pyRound cons.kcal) ++ " kcal",
       "- **Calorias restantes:** (meta não definida)",
       "- **Proteínas:** " ++ toString (pyRound cons.protein_g) ++ " g" ++
         " · (meta não definida)",
       "- **Gorduras:** " ++ toString (pyRound cons.fat_g) ++ " g" ++
         " · (meta não definida)",
       "- **Carboidratos:** " ++ toString (pyRound cons.carbs_g) ++ " g" ++
         " · (meta não definida)"] ∧
    (t.kcal ≠ 0 →
      (format_status_linhas cons (some t))[2]? =
        some ("- **Calorias restantes:** " ++
          toString (pyRound (max 0 (t.kcal - ((pyRound cons.kcal : ℤ) : ℚ)))) ++
          " kcal") ∧
      0 ≤ pyRound (max 0 (t.kcal - ((pyRound cons.kcal : ℤ) : ℚ)))) ∧
    (t.kcal = 0 →
      (format_status_linhas cons (some t))[2]? =
        some ("- **Calorias restantes:** (meta não definida)")) ∧
    (t.protein_g ≠ 0 →
      (format_status_linhas cons (some t))[3]? =
        some ("- **Proteínas:** " ++ toString (pyRound cons.protein_g) ++ " g" ++
          (" · restante " ++
            toString (pyRound (max 0 (t.protein_g - ((pyRound cons.protein_g : ℤ) : ℚ)))) ++
            " g")) ∧
      0 ≤ pyRound (max 0 (t.protein_g - ((pyRound cons.protein_g : ℤ) : ℚ)))) ∧
    (t.protein_g = 0 →
      (format_status_linhas cons (some t))[3]? =
        some ("- **Proteínas:** " ++ toString (pyRound cons.protein_g) ++ " g" ++
          " · (meta não definida)")) ∧
    (t.fat_g ≠ 0 →
      (format_status_linhas cons (some t))[4]? =
        some ("- **Gorduras:** " ++ toString (pyRound cons.fat_g) ++ " g" ++
          (" · restante " ++
            toString (pyRound (max 0 (t.fat_g - ((pyRound cons.fat_g : ℤ) : ℚ)))) ++
            " g")) ∧
      0 ≤ pyRound (max 0 (t.fat_g - ((pyRound cons.fat_g : ℤ) : ℚ)))) ∧
    (t.fat_g = 0 →
      (format_status_linhas cons (some t))[4]? =
        some ("- **Gorduras:** " ++ toString (pyRound cons.fat_g) ++ " g" ++
          " · (meta não definida)")) ∧
    (t.carbs_g ≠ 0 →
      (format_status_linhas cons (some t))[5]? =
        some ("- **Carboidratos:** " ++ toString (pyRound cons.carbs_g) ++ " g" ++
          (" · restante " ++
            toString (pyRound (max 0 (t.carbs_g - ((pyRound cons.carbs_g : ℤ) : ℚ)))) ++
            " g")) ∧
      0 ≤ pyRound (max 0 (t.carbs_g - ((pyRound cons.carbs_g : ℤ) : ℚ)))) ∧
    (t.carbs_g = 0 →
      (format_status_linhas cons (some t))[5]? =
        some ("- **Carboidratos:** " ++ toString (pyRound cons.carbs_g) ++ " g" ++
          " · (meta não definida)")) := by
  refine ⟨?_, ?_, ?_, ?_, ?_, ?_, ?_, ?_, ?_⟩
  · simp [format_status_linhas]
  · intro h
    exact ⟨by simp [format_status_linhas, h],
      pyRound_nonneg _ (le_max_left 0 _)⟩
  · intro h
    simp [format_status_linhas, h]
  · intro h
    exact ⟨by simp [format_status_linhas, h],
      pyRound_nonneg _ (le_max_left 0 _)⟩
  · intro h
    simp [format_status_linhas, h]
  · intro h
    exact ⟨by simp [format_status_linhas, h],
      pyRound_nonneg _ (le_max_left 0 _)⟩
  · intro h
    simp [format_status_linhas, h]
  · intro h
    exact ⟨by simp [format_status_linhas, h],
      pyRound_nonneg _ (le_max_left 0 _)⟩
  · intro h
    simp [format_status_linhas, h]

/-- A TargetSet with every target non-zero (the Example-1 targets). -/
def statusTargets : TargetsOut :=
  { bmr := 1900, tdee := 2945, kcal := 3240, protein_g := 166, fat_g := 74
    carbs_g := 479, warnings := [], blocked := false }

/-- Witness for C4 (amended): with targets supplied and non-zero, the shown
remaining kcal budget is non-negative. -/
theorem format_status_amended_witness :
    0 ≤ pyRound (max 0 (statusTargets.kcal -
        ((pyRound ((⟨100, 10, 20, 5⟩ : IntakeRecord)).kcal : ℤ) : ℚ))) :=
  ((format_status_amended ⟨100, 10, 20, 5⟩ statusTargets).2.1
    (by norm_num [statusTargets])).2
